import Mathlib

/-!
Verification development for the autobooks-ai receipt-processing service.

The Python sources (`app/main.py`, `app/utils.py`, `app/parse.py`,
`app/ocr.py`) are shallowly embedded below.  External effects — the JWT
library, the Gemini / NLP model calls, the backend HTTP calls and the OCR
engine — are passed in as explicit oracle values describing what the
external world returned on the call under consideration; everything else
follows the Python control flow line by line.  Machine-level concerns do
not arise: the code manipulates strings, dictionaries and HTTP status
codes only.
-/

namespace Autobooks

/-- JSON values, as produced by Python's `json.loads`.  Numbers keep their
source lexeme (no claim in this development depends on numeric equality
such as `1.0 == 1`). -/
inductive JsonVal where
  | null
  | bool (b : Bool)
  | num (lexeme : String)
  | str (s : String)
  | arr (items : List JsonVal)
  | obj (fields : List (String × JsonVal))
deriving Repr, Inhabited

/-- First-match lookup in an association list of JSON object fields.
(`json.loads` keeps the last duplicate key; no input in this development
has duplicate keys, so first-match lookup agrees with Python here.) -/
def lookupField : List (String × JsonVal) → String → Option JsonVal
  | [], _ => none
  | (k, v) :: rest, key => if k = key then some v else lookupField rest key

/-- Python `d.get(key, dflt)` on a JSON object. -/
def dictGet (j : JsonVal) (key : String) (dflt : JsonVal) : JsonVal :=
  match j with
  | .obj fs =>
    match lookupField fs key with
    | some v => v
    | none => dflt
  | _ => dflt

/-- Python `key in d` on a JSON object. -/
def jsonHasKey (j : JsonVal) (key : String) : Bool :=
  match j with
  | .obj fs => (lookupField fs key).isSome
  | _ => false

/-- Skip JSON whitespace. -/
def skipWs : List Char → List Char
  | [] => []
  | c :: cs =>
    if c = ' ' ∨ c = '\n' ∨ c = '\t' ∨ c = '\r' then skipWs cs else c :: cs

/-- Parse the body of a JSON string literal (after the opening quote),
returning the decoded characters and the rest of the input.  The common
escapes are decoded; `\uXXXX` escapes are rejected (no input in this
development contains them). -/
def parseStrChars : Nat → List Char → Option (List Char × List Char)
  | 0, _ => none
  | _, [] => none
  | fuel + 1, c :: cs =>
    if c = '"' then some ([], cs)
    else if c = '\\' then
      match cs with
      | [] => none
      | e :: cs2 =>
        let dec : Option Char :=
          if e = '"' then some '"'
          else if e = '\\' then some '\\'
          else if e = '/' then some '/'
          else if e = 'n' then some '\n'
          else if e = 't' then some '\t'
          else if e = 'r' then some '\r'
          else if e = 'b' then some (Char.ofNat 8)
          else if e = 'f' then some (Char.ofNat 12)
          else none
        match dec with
        | none => none
        | some d =>
          match parseStrChars fuel cs2 with
          | none => none
          | some (acc, rest) => some (d :: acc, rest)
    else
      match parseStrChars fuel cs with
      | none => none
      | some (acc, rest) => some (c :: acc, rest)

/-- The opening brace character, named so that no brace appears inside a
character or string literal. -/
def lbrace : Char := Char.ofNat 123

/-- The closing brace character. -/
def rbrace : Char := Char.ofNat 125

/-- Characters that may appear in a JSON number lexeme. -/
def numChar (c : Char) : Bool :=
  c.isDigit || c = '-' || c = '+' || c = '.' || c = 'e' || c = 'E'

/-- Parse a JSON number lexeme.  The lexeme's internal grammar is not
re-validated; no claim depends on malformed-number inputs. -/
def parseNum (cs : List Char) : Option (String × List Char) :=
  let lex := cs.takeWhile numChar
  if lex.isEmpty then none else some (String.mk lex, cs.dropWhile numChar)

mutual

/-- Parse one JSON value.  The fuel argument strictly exceeds the input
length at the top-level call, which suffices since every recursive call
consumes at least one character first. -/
def parseVal : Nat → List Char → Option (JsonVal × List Char)
  | 0, _ => none
  | fuel + 1, cs =>
    match skipWs cs with
    | [] => none
    | c :: rest =>
      if c = '"' then
        match parseStrChars (fuel + 1) rest with
        | none => none
        | some (sc, r) => some (.str (String.mk sc), r)
      else if c = lbrace then
        match skipWs rest with
        | [] => none
        | c2 :: r =>
          if c2 = rbrace then some (.obj [], r)
          else
            match parseMembers fuel (c2 :: r) with
            | none => none
            | some (ms, r2) => some (.obj ms, r2)
      else if c = '[' then
        match skipWs rest with
        | ']' :: r => some (.arr [], r)
        | other =>
          match parseItems fuel other with
          | none => none
          | some (vs, r) => some (.arr vs, r)
      else if c = 't' then
        match rest with
        | 'r' :: 'u' :: 'e' :: r => some (.bool true, r)
        | _ => none
      else if c = 'f' then
        match rest with
        | 'a' :: 'l' :: 's' :: 'e' :: r => some (.bool false, r)
        | _ => none
      else if c = 'n' then
        match rest with
        | 'u' :: 'l' :: 'l' :: r => some (.null, r)
        | _ => none
      else
        match parseNum (c :: rest) with
        | none => none
        | some (lx, r) => some (.num lx, r)

/-- Parse the members of a JSON object, positioned at a key. -/
def parseMembers : Nat → List Char → Option (List (String × JsonVal) × List Char)
  | 0, _ => none
  | fuel + 1, cs =>
    match skipWs cs with
    | '"' :: rest =>
      match parseStrChars (fuel + 1) rest with
      | none => none
      | some (key, r1) =>
        match skipWs r1 with
        | ':' :: r2 =>
          match parseVal fuel r2 with
          | none => none
          | some (v, r3) =>
            match skipWs r3 with
            | [] => none
            | c3 :: r4 =>
              if c3 = ',' then
                match parseMembers fuel r4 with
                | none => none
                | some (ms, r5) => some ((String.mk key, v) :: ms, r5)
              else if c3 = rbrace then some ([(String.mk key, v)], r4)
              else none
        | _ => none
    | _ => none

/-- Parse the items of a JSON array, positioned at a value. -/
def parseItems : Nat → List Char → Option (List JsonVal × List Char)
  | 0, _ => none
  | fuel + 1, cs =>
    match parseVal fuel cs with
    | none => none
    | some (v, r) =>
      match skipWs r with
      | ',' :: r2 =>
        match parseItems fuel r2 with
        | none => none
        | some (vs, r3) => some (v :: vs, r3)
      | ']' :: r2 => some ([v], r2)
      | _ => none

end

/-- Python `json.loads`: parse a complete JSON document, requiring only
whitespace after the value. -/
def json_loads (s : String) : Option JsonVal :=
  match parseVal (s.length + 1) s.data with
  | some (v, rest) => if (skipWs rest).isEmpty then some v else none
  | none => none

/-- Python `re.search(r"\x7b.*\x7d", s, re.DOTALL)` from `parse.py`:
with greedy `.*` under DOTALL, the match (when it exists) runs from the
first opening brace of `s` to the last closing brace, and exists exactly
when a closing brace occurs after the first opening brace. -/
def re_search_braces (s : String) : Option String :=
  let cs := s.data
  match cs.findIdx? (fun c => c = lbrace) with
  | none => none
  | some i =>
    match cs.reverse.findIdx? (fun c => c = rbrace) with
    | none => none
    | some k =>
      let j := cs.length - 1 - k
      if i < j then some (String.mk ((cs.drop i).take (j - i + 1))) else none

/-! ## Python string operations

Python's `str.split`, `str.replace` and `str.strip` are modelled by
structurally recursive functions over the character list, matching the
Python semantics (split on an explicit separator keeps empty pieces;
replace substitutes every non-overlapping occurrence left to right;
strip removes ASCII whitespace from both ends). -/

/-- Python `str.split(sep)` for a single-character separator, over the
character list: empty pieces are kept, and the empty string splits to
one empty piece. -/
def pySplitChar (sep : Char) : List Char → List (List Char)
  | [] => [[]]
  | c :: cs =>
    let r := pySplitChar sep cs
    if c = sep then [] :: r
    else
      match r with
      | [] => [[c]]
      | g :: gs => (c :: g) :: gs

/-- Python `s.split(sep)` for a single-character separator. -/
def pySplit (s : String) (sep : Char) : List String :=
  (pySplitChar sep s.data).map String.mk

/-- Whether the first list starts with the second. -/
def listStartsWith : List Char → List Char → Bool
  | _, [] => true
  | [], _ :: _ => false
  | a :: as, b :: bs => a = b && listStartsWith as bs

/-- Fuel-driven core of Python `str.replace`: substitute every
non-overlapping occurrence of the (non-empty) pattern, left to right. -/
def pyReplaceAux (pat repl : List Char) : Nat → List Char → List Char
  | _, [] => []
  | 0, cs => cs
  | fuel + 1, c :: cs =>
    if listStartsWith (c :: cs) pat then
      repl ++ pyReplaceAux pat repl fuel ((c :: cs).drop pat.length)
    else c :: pyReplaceAux pat repl fuel cs

/-- Python `s.replace(pat, repl)` for a non-empty pattern. -/
def pyReplace (s pat repl : String) : String :=
  String.mk (pyReplaceAux pat.data repl.data s.data.length s.data)

/-- The ASCII whitespace characters stripped by Python `str.strip()`. -/
def isPyWs (c : Char) : Bool :=
  c = ' ' || c = '\t' || c = '\n' || c = '\r' || c = '\x0B' || c = '\x0C'

/-- Python `s.strip()`: remove whitespace from both ends. -/
def pyStrip (s : String) : String :=
  String.mk (((s.data.dropWhile isPyWs).reverse.dropWhile isPyWs).reverse)

/-! ## Python runtime values -/

/-- Python exceptions that flow through the service: FastAPI
`HTTPException(status_code, detail)` and any other exception carrying its
message. -/
inductive PyExc where
  | http (status : Nat) (detail : String)
  | other (msg : String)
deriving Repr, DecidableEq

/-- Python `str(e)` on the exceptions above.  Starlette's `HTTPException`
prints as `"<status>: <detail>"`; other exceptions print their message. -/
def pyStr : PyExc → String
  | .http s d => toString s ++ ": " ++ d
  | .other m => m

/-- Python truthiness of an optional string: `None` and `""` are falsy. -/
def pyTruthy : Option String → Bool
  | none => false
  | some s => s ≠ ""

/-- Python `a or b` on optional strings. -/
def pyOr (a b : Option String) : Option String :=
  if pyTruthy a then a else b

/-! ## Token validation (`app/utils.py`, `decode_token`) -/

/-- The identity dictionary `decode_token` builds from a JWT payload:
`payload.get` yields the claim value or `None`.  Claim values are
modelled as strings. -/
structure Identity where
  username : Option String
  email : Option String
  user_id : Option String
deriving Repr, DecidableEq

/-- Outcome of `jwt.decode(token, SECRET_KEY, algorithms=[ALGORITHM])`:
a payload, an `ExpiredSignatureError`, or any other `JWTError`. -/
inductive JwtOutcome where
  | payload (username email user_id : Option String)
  | expired
  | invalid
deriving Repr, DecidableEq

/-- What `requests.post(f"{BACKEND_API}/token/refresh/", ...)` returned:
the HTTP status and `response.json().get("access")`. -/
structure RefreshResult where
  status : Nat
  access : Option String
deriving Repr, DecidableEq

/-- Oracles for the external effects of `decode_token`: the JWT library
and the backend refresh endpoint (`none` = the refresh POST, or reading
its JSON body, raised). -/
structure AuthEnv where
  jwtDecode : String → JwtOutcome
  refresh : Option RefreshResult

/-- Embedding of `app/utils.py`, `decode_token(token, refresh_token)`.  Returns the
result together with the number of refresh POSTs made.  On an expired
token with a truthy refresh token it performs one refresh call; any
failure inside that attempt (non-200 status, missing/undecodable new
access token, raised request) falls through to
`HTTPException(401, "Token has expired.")`; a `JWTError` yields
`HTTPException(401, "Invalid token.")`. -/
def decode_token (env : AuthEnv) (token : String) (refresh_token : Option String) :
    Except PyExc Identity × Nat :=
  match env.jwtDecode token with
  | .payload u e i => (.ok ⟨u, e, i⟩, 0)
  | .invalid => (.error (.http 401 "Invalid token."), 0)
  | .expired =>
    if pyTruthy refresh_token then
      match env.refresh with
      | none => (.error (.http 401 "Token has expired."), 1)
      | some r =>
        if r.status = 200 then
          match r.access with
          | none => (.error (.http 401 "Token has expired."), 1)
          | some newAccess =>
            match env.jwtDecode newAccess with
            | .payload u e i => (.ok ⟨u, e, i⟩, 1)
            | _ => (.error (.http 401 "Token has expired."), 1)
        else (.error (.http 401 "Token has expired."), 1)
    else (.error (.http 401 "Token has expired."), 0)

/-! ## Structured extraction (`app/parse.py`, `parse_with_nlp`) -/

/-- Oracles for the two model backends used by `parse_with_nlp`:
`geminiText` is `getattr(response, "text", "")` from the Gemini call
(`none` = any exception inside the Gemini block), and
`nlpResponse` is `result.get("response", "")` from the NLP server
(`Except.error` = any exception in the fallback block: request failure,
`raise_for_status`, or body decode). -/
structure NlpEnv where
  geminiText : Option String
  nlpResponse : Except String String

/-- The degraded record `{"raw_text": t, "document_type": "unknown"}`. -/
def fallbackRecord (t : String) : JsonVal :=
  .obj [("raw_text", .str t), ("document_type", .str "unknown")]

/-- Embedding of `app/parse.py`, `parse_with_nlp(text)`.  The Gemini branch returns the
parsed JSON object when the (stripped, non-empty) Gemini text contains a
brace-delimited substring that parses; in every other case — exception,
empty text, no match, parse failure — control falls through to the NLP
server branch, whose own failures degrade to
`{"raw_text": ..., "document_type": "unknown"}` records.  The function is
total: it never raises. -/
def parse_with_nlp (env : NlpEnv) (text : String) : JsonVal :=
  let geminiStructured : Option JsonVal :=
    match env.geminiText with
    | none => none
    | some raw =>
      let gemini_text := pyStrip raw
      if gemini_text ≠ "" then
        match re_search_braces gemini_text with
        | some m => json_loads m
        | none => none
      else none
  match geminiStructured with
  | some structured => structured
  | none =>
    match env.nlpResponse with
    | .error _ => fallbackRecord text
    | .ok rawResp =>
      let llm_text := pyStrip rawResp
      match re_search_braces llm_text with
      | some m =>
        match json_loads m with
        | some structured => structured
        | none => fallbackRecord llm_text
      | none => fallbackRecord llm_text

/-! ## Ledger forwarding (`app/parse.py`, `save_to_db`) -/

/-- Claim values of type `Option String` rendered into the JSON payload
(`None` becomes JSON `null`). -/
def optJson : Option String → JsonVal
  | none => .null
  | some s => .str s

/-- The payload dictionary built by `save_to_db`.  Every `data.get(k)`
defaults to `null`, except `items` (default `[]`) and `document_type`
(default `"unknown"`).  `user_id` and `business` both copy
`identity.get("user_id")`.  The `if identity:` guard is always true on
the call paths of this program (the dictionary from `decode_token` always
has its three keys), so `uploaded_by` is always added, holding
`identity.get("username") or identity.get("email")`. -/
def save_payload (data : JsonVal) (raw_text : String) (identity : Identity) :
    List (String × JsonVal) :=
  [("business_name", dictGet data "business_name" .null),
   ("invoice_number", dictGet data "invoice_number" .null),
   ("vendor", dictGet data "vendor" .null),
   ("bill_number", dictGet data "bill_number" .null),
   ("date", dictGet data "date" .null),
   ("tax", dictGet data "tax" .null),
   ("total", dictGet data "total" .null),
   ("customer", dictGet data "customer" .null),
   ("items", dictGet data "items" (.arr [])),
   ("receipt_number", dictGet data "receipt_number" .null),
   ("amount_paid", dictGet data "amount_paid" .null),
   ("payment_method", dictGet data "payment_method" .null),
   ("balance", dictGet data "balance" .null),
   ("billed_to", dictGet data "billed_to" .null),
   ("quotation_number", dictGet data "quotation_number" .null),
   ("issued_to", dictGet data "issued_to" .null),
   ("payroll_month", dictGet data "payroll_month" .null),
   ("employee_salaries", dictGet data "employee_salaries" .null),
   ("delivery_date", dictGet data "delivery_date" .null),
   ("delivery_note_number", dictGet data "delivery_note_number" .null),
   ("delivered_to", dictGet data "delivered_to" .null),
   ("credit_note_number", dictGet data "credit_note_number" .null),
   ("debit_note_number", dictGet data "debit_note_number" .null),
   ("asset_value", dictGet data "asset_value" .null),
   ("asset_description", dictGet data "asset_description" .null),
   ("loan_lender", dictGet data "loan_lender" .null),
   ("loan_terms", dictGet data "loan_terms" .null),
   ("equity_investor", dictGet data "equity_investor" .null),
   ("equity_terms", dictGet data "equity_terms" .null),
   ("received_by", dictGet data "received_by" .null),
   ("document_type", dictGet data "document_type" (.str "unknown")),
   ("raw_text", .str raw_text),
   ("user_id", optJson identity.user_id),
   ("business", optJson identity.user_id),
   ("uploaded_by", optJson (pyOr identity.username identity.email))]

/-- The request headers built by `save_to_db`.  The source reads
`if not token: headers["Authorization"] = f"Bearer \x7btoken\x7d"`, so the
`Authorization` header is attached exactly when the token is FALSY. -/
def save_headers (token : String) : List (String × String) :=
  if token = "" then
    [("Content-Type", "application/json"), ("Authorization", "Bearer " ++ token)]
  else
    [("Content-Type", "application/json")]

/-- What `requests.post(BACKEND_SERVER, ...)` returned: its status and
`response.json()` (`none` = the body was not valid JSON). -/
structure BackendResponse where
  status : Nat
  body : Option JsonVal

/-- Oracle for the backend ingestion endpoint, as a function of the
payload and headers actually sent (`Except.error` = the POST raised). -/
structure SaveEnv where
  post : List (String × JsonVal) → List (String × String) →
    Except String BackendResponse

/-- Embedding of `requests.Response.raise_for_status()`: raises `HTTPError` exactly
for statuses in `[400, 600)`. -/
def raise_for_status (status : Nat) : Except PyExc Unit :=
  if 400 ≤ status ∧ status < 600 then
    .error (.other (toString status ++
      (if status < 500 then " Client Error" else " Server Error")))
  else .ok ()

/-- Embedding of `app/parse.py`, `save_to_db(data, raw_text, token, identity)`: builds
the payload and headers, POSTs to the backend, calls
`raise_for_status()`, and returns `response.json()`.  Any exception is
logged and re-raised (`raise`), so a failed forward propagates. -/
def save_to_db (env : SaveEnv) (data : JsonVal) (raw_text token : String)
    (identity : Identity) : Except PyExc JsonVal :=
  match env.post (save_payload data raw_text identity) (save_headers token) with
  | .error m => .error (.other m)
  | .ok resp =>
    match raise_for_status resp.status with
    | .error e => .error e
    | .ok _ =>
      match resp.body with
      | some j => .ok j
      | none => .error (.other "Invalid JSON body")

/-! ## Pipeline (`app/parse.py`, `process_invoice`) -/

/-- Oracles for one run of the pipeline after OCR. -/
structure PipEnv where
  nlp : NlpEnv
  save : SaveEnv

/-- Embedding of `app/parse.py`, `process_invoice(text, token, identity)`: always runs
`parse_with_nlp` on the text and then `save_to_db`, returning the
structured data (the save confirmation is discarded, but a save exception
propagates).  The second component records the stages executed, in
order. -/
def process_invoice (env : PipEnv) (text token : String) (identity : Identity) :
    Except PyExc JsonVal × List String :=
  let structured := parse_with_nlp env.nlp text
  match save_to_db env.save structured text token identity with
  | .ok _ => (.ok structured, ["parse_with_nlp", "save_to_db"])
  | .error e => (.error e, ["parse_with_nlp", "save_to_db"])

/-! ## OCR (`app/ocr.py`, `extract_text`) -/

/-- One run of `reader.readtext(file_path, detail=1)`: either the list of
recognised text snippets (the `r[1]` component of each detection; boxes
and confidences are never read by `extract_text`), or an engine
exception. -/
inductive OcrRun where
  | results (texts : List String)
  | exc (msg : String)

/-- Embedding of `app/ocr.py`, `extract_text(file_path)`: joins the recognised
snippets with newlines; any engine exception is caught and converted to
`""`.  Total — it never raises. -/
def extract_text (run : OcrRun) : String :=
  match run with
  | .results texts => String.intercalate "\n" texts
  | .exc _ => ""

/-! ## Upload endpoint (`app/main.py`, `upload_receipt`) -/

/-- The HTTP outcome of an endpoint call: a success body or an
`HTTPException`-derived error response. -/
inductive UploadOutcome where
  | success (structured : JsonVal) (identity : Identity)
  | httpError (status : Nat) (detail : String)
deriving Repr

/-- Oracles for one `/upload` request: auth, the two model backends, the
backend ingestion endpoint and the OCR engine.  File persistence
(`open(file_path, "wb")`) is modelled as succeeding. -/
structure UploadEnv where
  auth : AuthEnv
  nlp : NlpEnv
  save : SaveEnv
  ocr : OcrRun

/-- Embedding of `app/main.py` lines 206-207: when the decoded identity's `user_id`
is falsy and the form field `user_id` is truthy, the form value is
written into the identity. -/
def merge_user_id (ident : Identity) (user_id : Option String) : Identity :=
  if !pyTruthy ident.user_id && pyTruthy user_id then
    { ident with user_id := user_id }
  else ident

/-- The `try:` body of `upload_receipt`: token extraction and checks
(`HTTPException(401, ...)` raised on failure), `decode_token`, the
`user_id` merge and check, OCR, and `process_invoice`.  The second
component records the pipeline stages executed. -/
def upload_body (env : UploadEnv) (authorization : String)
    (x_refresh_token : Option String) (user_id : Option String) :
    Except PyExc (JsonVal × Identity) × List String :=
  let token := pyStrip (pyReplace authorization "Bearer " "")
  if token = "" then (.error (.http 401 "Missing or invalid token"), [])
  else
    match decode_token env.auth token x_refresh_token with
    | (.error e, _) => (.error e, [])
    | (.ok ident0, _) =>
      let ident := merge_user_id ident0 user_id
      if !pyTruthy ident.user_id then
        (.error (.http 401 "User ID missing"), [])
      else
        let text := extract_text env.ocr
        match process_invoice ⟨env.nlp, env.save⟩ text token ident with
        | (.ok sd, ev) => (.ok (sd, ident), "extract_text" :: ev)
        | (.error e, ev) => (.error e, "extract_text" :: ev)

/-- Embedding of `app/main.py`, `upload_receipt`: the whole body sits in one
`try: ... except Exception as e: raise HTTPException(500, str(e))`.
Because FastAPI's `HTTPException` is itself an `Exception`, the 401s
raised inside the body are caught here too and re-raised as a 500 whose
detail is `str(e)` — i.e. `"401: <original detail>"`. -/
def upload_receipt (env : UploadEnv) (authorization : String)
    (x_refresh_token : Option String) (user_id : Option String) :
    UploadOutcome × List String :=
  match upload_body env authorization x_refresh_token user_id with
  | (.ok (sd, ident), ev) => (.success sd ident, ev)
  | (.error e, ev) => (.httpError 500 (pyStr e), ev)

/-! ## Copilot endpoint (`app/main.py`, `copilot_endpoint`) -/

/-- Oracles for one `/copilot` request: auth, the three report fetches
(`response.json()` of each; `Except.error` = the GET or its body decode
raised) and the Gemini reply (`query_gemini_direct` catches all its own
exceptions, so it is a plain string). -/
structure CopilotEnv where
  auth : AuthEnv
  balance : Except String JsonVal
  pnl : Except String JsonVal
  cashflow : Except String JsonVal
  geminiReply : String

/-- The HTTP outcome of a `/copilot` call.  `unhandled` marks an
exception that escapes the endpoint without being converted to an
`HTTPException` (FastAPI then produces a generic 500 Internal Server
Error). -/
inductive CopilotOutcome where
  | reply (text : String)
  | httpError (status : Nat) (detail : String)
  | unhandled (msg : String)
deriving Repr, DecidableEq

/-- Embedding of `app/main.py`, `copilot_endpoint`: a falsy `Authorization` header is
rejected with `HTTPException(401, "Missing auth header")`; otherwise the
token is `auth_header.split(" ")[1]`, which raises an uncaught
`IndexError` when the header contains no space.  `decode_token` errors
propagate as proper 401 responses (they are not inside any `try`).  The
three report fetches run sequentially inside one `try`; any failure
yields `HTTPException(502, ...)`.  Only when all three succeed is Gemini
queried; the second component records whether it was called. -/
def copilot_endpoint (env : CopilotEnv) (_message : String)
    (authHeader : Option String) (refreshHeader : Option String) :
    CopilotOutcome × Bool :=
  if !pyTruthy authHeader then (.httpError 401 "Missing auth header", false)
  else
    match (pySplit (authHeader.getD "") ' ')[1]? with
    | none => (.unhandled "IndexError: list index out of range", false)
    | some token =>
      match decode_token env.auth token refreshHeader with
      | (.error (.http s d), _) => (.httpError s d, false)
      | (.error (.other m), _) => (.unhandled m, false)
      | (.ok _user, _) =>
        match env.balance with
        | .error m => (.httpError 502 ("Django request failed: " ++ m), false)
        | .ok _balance =>
          match env.pnl with
          | .error m => (.httpError 502 ("Django request failed: " ++ m), false)
          | .ok _pl =>
            match env.cashflow with
            | .error m => (.httpError 502 ("Django request failed: " ++ m), false)
            | .ok _cf => (.reply env.geminiReply, true)

/-! ## Concrete fixtures used by the theorems -/

/-- An auth oracle under which every token is malformed. -/
def authInvalid : AuthEnv := ⟨fun _ => .invalid, none⟩

/-- An auth oracle that decodes every token to the claims of user alice. -/
def authOkEnv : AuthEnv :=
  ⟨fun _ => .payload (some "alice") (some "a@x.io") (some "7"), none⟩

/-- An auth oracle where tokens are expired except the refreshed access
token, and the refresh endpoint answers 200 with that token. -/
def authExpEnv : AuthEnv :=
  ⟨fun t =>
    if t = "newtok" then .payload (some "bob") (some "b@x.io") (some "9")
    else .expired,
   some ⟨200, some "newtok"⟩⟩

/-- An auth oracle where tokens are expired and the refresh POST raises. -/
def authExpNoRef : AuthEnv := ⟨fun _ => .expired, none⟩

/-- An auth oracle where tokens are expired and the refresh endpoint
answers 401. -/
def authExpBadRef : AuthEnv := ⟨fun _ => .expired, some ⟨401, none⟩⟩

/-- An auth oracle whose decoded payload carries no user_id claim. -/
def authNoId : AuthEnv :=
  ⟨fun _ => .payload (some "carol") (some "c@x.io") none, none⟩

/-- Both model backends down. -/
def nlpDown : NlpEnv := ⟨none, Except.error "NLP server down"⟩

/-- The example model output from the specification: chatty text around a
JSON object. -/
def sureText : String :=
  "Sure! \x7b\"document_type\": \"invoice\", \"total\": \"12.00\"\x7d"

/-- The record the example output parses to. -/
def invoiceRecord : JsonVal :=
  .obj [("document_type", .str "invoice"), ("total", .str "12.00")]

/-- NLP server answering the example output (Gemini down). -/
def nlpSure : NlpEnv := ⟨none, Except.ok sureText⟩

/-- Gemini answering the example output. -/
def gemSure : NlpEnv := ⟨some sureText, Except.error "down"⟩

/-- NLP server output with no brace-delimited substring. -/
def nlpNoBrace : NlpEnv := ⟨none, Except.ok "no json in this reply"⟩

/-- A brace-delimited substring that is not valid JSON. -/
def brokenText : String := "\x7bbroken\x7d"

/-- NLP server output whose brace-delimited substring fails to parse. -/
def nlpBroken : NlpEnv := ⟨none, Except.ok brokenText⟩

/-- NLP server output that parses to an object with no document_type. -/
def nlpBare : NlpEnv := ⟨none, Except.ok "\x7b\"total\": \"5.00\"\x7d"⟩

/-- A backend ingestion oracle whose POST raises. -/
def saveDown : SaveEnv := ⟨fun _ _ => Except.error "backend down"⟩

/-- A backend ingestion oracle answering 500 (body not JSON). -/
def save500 : SaveEnv := ⟨fun _ _ => Except.ok ⟨500, none⟩⟩

/-- A backend ingestion oracle answering 201 with a JSON confirmation. -/
def saveOk : SaveEnv :=
  ⟨fun _ _ => Except.ok ⟨201, some (.obj [("id", .num "1")])⟩⟩

/-- A pipeline with both model backends and the backend ingestion down. -/
def pipDown : PipEnv := ⟨nlpDown, saveDown⟩

/-- A fully healthy pipeline. -/
def pipOk : PipEnv := ⟨nlpSure, saveOk⟩

/-- The identity decoded for user alice. -/
def identAlice : Identity := ⟨some "alice", some "a@x.io", some "7"⟩

/-- Upload environment for the auth-failure evaluations. -/
def envC1 : UploadEnv := ⟨authInvalid, nlpDown, saveDown, .exc "engine error"⟩

/-- Upload environment whose credential decodes without a user_id. -/
def envC9 : UploadEnv := ⟨authNoId, nlpDown, saveDown, .exc "engine error"⟩

/-- Copilot environment for the header-crash evaluation. -/
def envC10 : CopilotEnv :=
  ⟨authInvalid, Except.error "x", Except.error "x", Except.error "x", "reply"⟩

/-- Copilot environment: balance-sheet fetch raises. -/
def copilotBalDown : CopilotEnv :=
  ⟨authOkEnv, Except.error "conn refused", Except.ok (.obj []),
   Except.ok (.obj []), "reply"⟩

/-- Copilot environment: profit-and-loss fetch raises. -/
def copilotPnlDown : CopilotEnv :=
  ⟨authOkEnv, Except.ok (.obj []), Except.error "conn refused",
   Except.ok (.obj []), "reply"⟩

/-- Copilot environment: cash-flow fetch raises. -/
def copilotCfDown : CopilotEnv :=
  ⟨authOkEnv, Except.ok (.obj []), Except.ok (.obj []),
   Except.error "conn refused", "reply"⟩

/-! ## Helper lemmas -/

/-- Both branches of `process_invoice` record the same stage list, so the
stages executed never depend on the save outcome. -/
theorem process_invoice_events (env : PipEnv) (text tok : String)
    (ident : Identity) :
    (process_invoice env text tok ident).2 = ["parse_with_nlp", "save_to_db"] := by
  cases hs : save_to_db env.save (parse_with_nlp env.nlp text) text tok ident <;>
    simp [process_invoice, hs]

/-- A dictionary lookup with a default returns the default when the key
is absent. -/
theorem dictGet_default (j : JsonVal) (k : String) (d : JsonVal)
    (h : jsonHasKey j k = false) : dictGet j k d = d := by
  cases j with
  | obj fs =>
    cases hl : lookupField fs k with
    | some v => simp [jsonHasKey, hl] at h
    | none => simp [dictGet, hl]
  | null => rfl
  | bool b => rfl
  | num lexeme => rfl
  | str s => rfl
  | arr items => rfl

/-! ## Claim theorems -/

/-- C1: the spec says a request with a missing or invalid bearer
credential receives HTTP 401 from `POST /upload`.  The code raises those
401 `HTTPException`s inside the endpoint's `try` block, whose
`except Exception` clause catches them (FastAPI's `HTTPException` is an
`Exception`) and re-raises `HTTPException(500, str(e))`: the caller
receives a 500 whose detail is `"401: ..."`, not a 401.  Evaluated here
at an empty token and at a malformed token. -/
theorem C1_auth_failure_returns_500 :
    (upload_receipt envC1 "Bearer " none none).1 =
      UploadOutcome.httpError 500 "401: Missing or invalid token" ∧
    (upload_receipt envC1 "Bearer bad" none none).1 =
      UploadOutcome.httpError 500 "401: Invalid token." :=
  ⟨rfl, rfl⟩

/-- C4: the spec says every save with a non-empty credential sends the
bearer `Authorization` header.  The code's guard is inverted
(`if not token:`), so a non-empty token sends NO `Authorization` header
at all, and an empty token sends the useless header `"Bearer "`. -/
theorem C4_auth_header_only_when_token_empty :
    save_headers "sometoken" = [("Content-Type", "application/json")] ∧
    save_headers "" =
      [("Content-Type", "application/json"), ("Authorization", "Bearer ")] :=
  ⟨rfl, rfl⟩

/-- C5 counterexample: the claim says every record produced by the
extractor contains the key document_type, in particular a successfully
parsed model object with arbitrary keys.  But a parsed object is
returned as-is: on model output consisting only of an object without
that key, the produced record lacks document_type. -/
theorem C5_counterexample_parsed_record_lacks_key :
    jsonHasKey (parse_with_nlp nlpBare "some ocr text") "document_type" = false :=
  rfl

/-- C10: a non-empty `Authorization` header without a space (here the
6-character header "Bearer") makes `auth_header.split(" ")[1]` index past
the single-element split, so the endpoint dies with an uncaught
`IndexError` instead of answering 401. -/
theorem C10_spaceless_header_uncaught_error :
    ("Bearer" ≠ "" ∧ (pySplit "Bearer" ' ').length = 1) ∧
    (copilot_endpoint envC10 "hi" (some "Bearer") none).1 =
      CopilotOutcome.unhandled "IndexError: list index out of range" :=
  ⟨⟨by decide, by decide⟩, rfl⟩

/-- C2: the token validator returns the three decoded claims for every
credential the JWT library accepts; on an expired credential with a
truthy refresh token it makes exactly one refresh call and, when that
call answers 200 and the new access credential decodes, returns the
identity decoded from it; with no refresh token, or a raised or non-200
refresh call, it fails with the 401 message "Token has expired.",
distinct from the malformed-credential message "Invalid token.". -/
theorem C2_decode_token_correct :
    (∀ env tok rt u e i, env.jwtDecode tok = .payload u e i →
      decode_token env tok rt = (.ok ⟨u, e, i⟩, 0)) ∧
    (∀ env tok rt na u e i, env.jwtDecode tok = .expired →
      pyTruthy rt = true → env.refresh = some ⟨200, some na⟩ →
      env.jwtDecode na = .payload u e i →
      decode_token env tok rt = (.ok ⟨u, e, i⟩, 1)) ∧
    (∀ env tok rt, env.jwtDecode tok = .expired → pyTruthy rt = false →
      decode_token env tok rt = (.error (.http 401 "Token has expired."), 0)) ∧
    (∀ env tok rt, env.jwtDecode tok = .expired → pyTruthy rt = true →
      env.refresh = none →
      decode_token env tok rt = (.error (.http 401 "Token has expired."), 1)) ∧
    (∀ env tok rt r, env.jwtDecode tok = .expired → pyTruthy rt = true →
      env.refresh = some r → r.status ≠ 200 →
      decode_token env tok rt = (.error (.http 401 "Token has expired."), 1)) ∧
    (∀ env tok rt, env.jwtDecode tok = .invalid →
      decode_token env tok rt = (.error (.http 401 "Invalid token."), 0)) ∧
    ("Token has expired." ≠ "Invalid token.") := by
  refine ⟨?_, ?_, ?_, ?_, ?_, ?_, by decide⟩
  · intro env tok rt u e i h
    simp [decode_token, h]
  · intro env tok rt na u e i h1 h2 h3 h4
    simp [decode_token, h1, h2, h3, h4]
  · intro env tok rt h1 h2
    simp [decode_token, h1, h2]
  · intro env tok rt h1 h2 h3
    simp [decode_token, h1, h2, h3]
  · intro env tok rt r h1 h2 h3 h4
    simp [decode_token, h1, h2, h3, h4]
  · intro env tok rt h
    simp [decode_token, h]

/-- Witness for C2: each clause applied at a concrete oracle and token. -/
theorem C2_decode_token_correct_witness :
    decode_token authOkEnv "tok" none =
      (.ok ⟨some "alice", some "a@x.io", some "7"⟩, 0) ∧
    decode_token authExpEnv "old" (some "r") =
      (.ok ⟨some "bob", some "b@x.io", some "9"⟩, 1) ∧
    decode_token authExpNoRef "old" none =
      (.error (.http 401 "Token has expired."), 0) ∧
    decode_token authExpNoRef "old" (some "r") =
      (.error (.http 401 "Token has expired."), 1) ∧
    decode_token authExpBadRef "old" (some "r") =
      (.error (.http 401 "Token has expired."), 1) ∧
    decode_token authInvalid "tok" none =
      (.error (.http 401 "Invalid token."), 0) :=
  ⟨C2_decode_token_correct.1 authOkEnv "tok" none _ _ _ rfl,
   C2_decode_token_correct.2.1 authExpEnv "old" (some "r") "newtok" _ _ _
     (by decide) (by decide) rfl (by decide),
   C2_decode_token_correct.2.2.1 authExpNoRef "old" none rfl rfl,
   C2_decode_token_correct.2.2.2.1 authExpNoRef "old" (some "r") rfl
     (by decide) rfl,
   C2_decode_token_correct.2.2.2.2.1 authExpBadRef "old" (some "r") ⟨401, none⟩
     rfl (by decide) rfl (by decide),
   C2_decode_token_correct.2.2.2.2.2.1 authInvalid "tok" none rfl⟩

/-- C3: the extractor takes the first greedy brace-delimited substring of
the model text and parses it as JSON — on the example output
"Sure! ..." (from either model backend) it returns the invoice record
with the prefix ignored; when the (stripped) model text has no
brace-delimited substring, or that substring fails to parse, it returns
the degraded record with raw_text set to the model text; when the model
call itself fails it returns the degraded record with raw_text set to
the OCR text.  The embedding is a total function, so extraction never
raises. -/
theorem C3_extractor_behaviour :
    (∀ env text, env.geminiText = none →
      env.nlpResponse = Except.ok sureText →
      parse_with_nlp env text = invoiceRecord) ∧
    (∀ env text, env.geminiText = some sureText →
      parse_with_nlp env text = invoiceRecord) ∧
    (∀ env text llm, env.geminiText = none →
      env.nlpResponse = Except.ok llm →
      re_search_braces (pyStrip llm) = none →
      parse_with_nlp env text = fallbackRecord (pyStrip llm)) ∧
    (∀ env text llm m, env.geminiText = none →
      env.nlpResponse = Except.ok llm →
      re_search_braces (pyStrip llm) = some m → json_loads m = none →
      parse_with_nlp env text = fallbackRecord (pyStrip llm)) ∧
    (∀ env text msg, env.geminiText = none →
      env.nlpResponse = Except.error msg →
      parse_with_nlp env text = fallbackRecord text) := by
  refine ⟨?_, ?_, ?_, ?_, ?_⟩
  · intro env text h1 h2
    simp [parse_with_nlp, h1, h2]
    rfl
  · intro env text h1
    simp [parse_with_nlp, h1]
    rfl
  · intro env text llm h1 h2 h3
    simp [parse_with_nlp, h1, h2, h3]
  · intro env text llm m h1 h2 h3 h4
    simp [parse_with_nlp, h1, h2, h3, h4]
  · intro env text msg h1 h2
    simp [parse_with_nlp, h1, h2]

/-- Witness for C3: each clause applied at a concrete model output. -/
theorem C3_extractor_behaviour_witness :
    parse_with_nlp nlpSure "ocr" = invoiceRecord ∧
    parse_with_nlp gemSure "ocr" = invoiceRecord ∧
    parse_with_nlp nlpNoBrace "ocr" =
      fallbackRecord (pyStrip "no json in this reply") ∧
    parse_with_nlp nlpBroken "ocr" = fallbackRecord (pyStrip brokenText) ∧
    parse_with_nlp nlpDown "ocr" = fallbackRecord "ocr" :=
  ⟨C3_extractor_behaviour.1 nlpSure "ocr" rfl rfl,
   C3_extractor_behaviour.2.1 gemSure "ocr" rfl,
   C3_extractor_behaviour.2.2.1 nlpNoBrace "ocr" "no json in this reply"
     rfl rfl rfl,
   C3_extractor_behaviour.2.2.2.1 nlpBroken "ocr" brokenText brokenText
     rfl rfl rfl rfl,
   C3_extractor_behaviour.2.2.2.2 nlpDown "ocr" "NLP server down" rfl rfl⟩

/-- C5 amended: the degraded records produced when no brace-delimited
substring is found, when it fails to parse, or when the model call
fails, always carry document_type = "unknown"; a successfully parsed
object, however, is returned exactly as parsed (so it carries
document_type only if the model emitted one), and it is the forwarder's
payload that later defaults a missing document_type to "unknown". -/
theorem C5_document_type_amended :
    (∀ env text llm, env.geminiText = none →
      env.nlpResponse = Except.ok llm →
      re_search_braces (pyStrip llm) = none →
      dictGet (parse_with_nlp env text) "document_type" .null =
        .str "unknown") ∧
    (∀ env text llm m, env.geminiText = none →
      env.nlpResponse = Except.ok llm →
      re_search_braces (pyStrip llm) = some m → json_loads m = none →
      dictGet (parse_with_nlp env text) "document_type" .null =
        .str "unknown") ∧
    (∀ env text msg, env.geminiText = none →
      env.nlpResponse = Except.error msg →
      dictGet (parse_with_nlp env text) "document_type" .null =
        .str "unknown") ∧
    (∀ env text llm m v, env.geminiText = none →
      env.nlpResponse = Except.ok llm →
      re_search_braces (pyStrip llm) = some m → json_loads m = some v →
      parse_with_nlp env text = v) ∧
    (∀ data raw ident, jsonHasKey data "document_type" = false →
      lookupField (save_payload data raw ident) "document_type" =
        some (.str "unknown")) := by
  refine ⟨?_, ?_, ?_, ?_, ?_⟩
  · intro env text llm h1 h2 h3
    simp [parse_with_nlp, h1, h2, h3]
    rfl
  · intro env text llm m h1 h2 h3 h4
    simp [parse_with_nlp, h1, h2, h3, h4]
    rfl
  · intro env text msg h1 h2
    simp [parse_with_nlp, h1, h2]
    rfl
  · intro env text llm m v h1 h2 h3 h4
    simp [parse_with_nlp, h1, h2, h3, h4]
  · intro data raw ident h
    have hl : lookupField (save_payload data raw ident) "document_type" =
        some (dictGet data "document_type" (.str "unknown")) := rfl
    rw [hl, dictGet_default data _ _ h]

/-- Witness for C5 amended: each clause at a concrete model output, and
the payload default at an object lacking the key. -/
theorem C5_document_type_amended_witness :
    dictGet (parse_with_nlp nlpNoBrace "ocr") "document_type" .null =
      .str "unknown" ∧
    dictGet (parse_with_nlp nlpBroken "ocr") "document_type" .null =
      .str "unknown" ∧
    dictGet (parse_with_nlp nlpDown "ocr") "document_type" .null =
      .str "unknown" ∧
    parse_with_nlp nlpBare "ocr" = .obj [("total", .str "5.00")] ∧
    lookupField
        (save_payload (.obj [("total", .str "5.00")]) "raw" identAlice)
        "document_type" =
      some (.str "unknown") :=
  ⟨C5_document_type_amended.1 nlpNoBrace "ocr" "no json in this reply"
     rfl rfl rfl,
   C5_document_type_amended.2.1 nlpBroken "ocr" brokenText brokenText
     rfl rfl rfl rfl,
   C5_document_type_amended.2.2.1 nlpDown "ocr" "NLP server down" rfl rfl,
   C5_document_type_amended.2.2.2.1 nlpBare "ocr"
     "\x7b\"total\": \"5.00\"\x7d" "\x7b\"total\": \"5.00\"\x7d"
     (.obj [("total", .str "5.00")]) rfl rfl rfl rfl,
   C5_document_type_amended.2.2.2.2 (.obj [("total", .str "5.00")]) "raw"
     identAlice rfl⟩

/-- C6: with the backend's answer given as a function of the payload and
headers actually sent, the forwarder raises (returns no confirmation)
whenever the response status falls in the HTTP error range 400-599, and
returns the backend's parsed JSON body whenever the status is below 400
and the body parses; a forwarding failure propagates out of
`process_invoice` as the pipeline's failure. -/
theorem C6_forwarder_raises_on_error_status :
    (∀ env data raw tok ident resp,
      env.post (save_payload data raw ident) (save_headers tok) =
        Except.ok resp →
      400 ≤ resp.status → resp.status < 600 →
      ∃ e, save_to_db env data raw tok ident = Except.error e) ∧
    (∀ env data raw tok ident resp j,
      env.post (save_payload data raw ident) (save_headers tok) =
        Except.ok resp →
      resp.status < 400 → resp.body = some j →
      save_to_db env data raw tok ident = Except.ok j) ∧
    (∀ env text tok ident e,
      save_to_db env.save (parse_with_nlp env.nlp text) text tok ident =
        Except.error e →
      (process_invoice env text tok ident).1 = Except.error e) := by
  refine ⟨?_, ?_, ?_⟩
  · intro env data raw tok ident resp h1 h2 h3
    refine ⟨.other (toString resp.status ++
      (if resp.status < 500 then " Client Error" else " Server Error")), ?_⟩
    simp [save_to_db, h1, raise_for_status, h2, h3]
  · intro env data raw tok ident resp j h1 h2 h3
    have hnot : ¬ (400 ≤ resp.status ∧ resp.status < 600) := by omega
    simp [save_to_db, h1, raise_for_status, hnot, h3]
  · intro env text tok ident e h
    simp [process_invoice, h]

/-- Witness for C6: a 500 answer raises, a 201 answer returns the parsed
confirmation, and a raised POST fails the pipeline. -/
theorem C6_forwarder_raises_on_error_status_witness :
    (∃ e, save_to_db save500 invoiceRecord "raw" "tok" identAlice =
      Except.error e) ∧
    save_to_db saveOk invoiceRecord "raw" "tok" identAlice =
      Except.ok (.obj [("id", .num "1")]) ∧
    (process_invoice pipDown "text" "tok" identAlice).1 =
      Except.error (.other "backend down") :=
  ⟨C6_forwarder_raises_on_error_status.1 save500 invoiceRecord "raw" "tok"
     identAlice ⟨500, none⟩ rfl (by decide) (by decide),
   C6_forwarder_raises_on_error_status.2.1 saveOk invoiceRecord "raw" "tok"
     identAlice ⟨201, some (.obj [("id", .num "1")])⟩
     (.obj [("id", .num "1")]) rfl (by decide) rfl,
   C6_forwarder_raises_on_error_status.2.2 pipDown "text" "tok" identAlice
     (.other "backend down") rfl⟩

/-- C7: the text extractor is total — an OCR engine exception becomes the
empty string, and a successful run joins the recognised snippets — and
the pipeline on empty text still executes both the structured extractor
and the ledger forwarder (it never short-circuits). -/
theorem C7_ocr_total_and_pipeline_continues :
    (∀ msg, extract_text (OcrRun.exc msg) = "") ∧
    (∀ texts, extract_text (OcrRun.results texts) =
      String.intercalate "\n" texts) ∧
    (∀ env tok ident, (process_invoice env "" tok ident).2 =
      ["parse_with_nlp", "save_to_db"]) :=
  ⟨fun _ => rfl, fun _ => rfl,
   fun env tok ident => process_invoice_events env "" tok ident⟩

/-- C8: once authentication passes, a failure of any one of the three
sequential report fetches aborts the copilot request with a 502 response
carrying the failure, and the language model is never called — there is
no partial-answer mode. -/
theorem C8_copilot_502_without_model_call :
    (∀ env msg hdr rt tok user n m, pyTruthy hdr = true →
      (pySplit (hdr.getD "") ' ')[1]? = some tok →
      decode_token env.auth tok rt = (Except.ok user, n) →
      env.balance = Except.error m →
      copilot_endpoint env msg hdr rt =
        (.httpError 502 ("Django request failed: " ++ m), false)) ∧
    (∀ env msg hdr rt tok user n b m, pyTruthy hdr = true →
      (pySplit (hdr.getD "") ' ')[1]? = some tok →
      decode_token env.auth tok rt = (Except.ok user, n) →
      env.balance = Except.ok b → env.pnl = Except.error m →
      copilot_endpoint env msg hdr rt =
        (.httpError 502 ("Django request failed: " ++ m), false)) ∧
    (∀ env msg hdr rt tok user n b p m, pyTruthy hdr = true →
      (pySplit (hdr.getD "") ' ')[1]? = some tok →
      decode_token env.auth tok rt = (Except.ok user, n) →
      env.balance = Except.ok b → env.pnl = Except.ok p →
      env.cashflow = Except.error m →
      copilot_endpoint env msg hdr rt =
        (.httpError 502 ("Django request failed: " ++ m), false)) := by
  refine ⟨?_, ?_, ?_⟩
  · intro env msg hdr rt tok user n m h1 h2 h3 h4
    simp [copilot_endpoint, h1, h2, h3, h4]
  · intro env msg hdr rt tok user n b m h1 h2 h3 h4 h5
    simp [copilot_endpoint, h1, h2, h3, h4, h5]
  · intro env msg hdr rt tok user n b p m h1 h2 h3 h4 h5 h6
    simp [copilot_endpoint, h1, h2, h3, h4, h5, h6]

/-- Witness for C8: each of the three fetches failing in isolation. -/
theorem C8_copilot_502_without_model_call_witness :
    copilot_endpoint copilotBalDown "hi" (some "Bearer tok") none =
      (.httpError 502 "Django request failed: conn refused", false) ∧
    copilot_endpoint copilotPnlDown "hi" (some "Bearer tok") none =
      (.httpError 502 "Django request failed: conn refused", false) ∧
    copilot_endpoint copilotCfDown "hi" (some "Bearer tok") none =
      (.httpError 502 "Django request failed: conn refused", false) :=
  ⟨C8_copilot_502_without_model_call.1 copilotBalDown "hi"
     (some "Bearer tok") none "tok" identAlice 0 "conn refused"
     (by decide) rfl rfl rfl,
   C8_copilot_502_without_model_call.2.1 copilotPnlDown "hi"
     (some "Bearer tok") none "tok" identAlice 0 (.obj []) "conn refused"
     (by decide) rfl rfl rfl rfl,
   C8_copilot_502_without_model_call.2.2 copilotCfDown "hi"
     (some "Bearer tok") none "tok" identAlice 0 (.obj []) (.obj [])
     "conn refused" (by decide) rfl rfl rfl rfl rfl⟩

/-- The success and error branches of `upload_receipt` both forward the
stage list of the body unchanged. -/
theorem upload_receipt_events (env : UploadEnv) (auth : String)
    (rt uid : Option String) :
    (upload_receipt env auth rt uid).2 = (upload_body env auth rt uid).2 := by
  rcases hb : upload_body env auth rt uid with ⟨res, ev⟩
  rcases res with e | ⟨sd, ident⟩ <;> simp [upload_receipt, hb]

/-- When the token is non-empty, the credential decodes, and the merged
identity has a truthy user_id, the upload body runs OCR and the full
pipeline, whatever their outcomes. -/
theorem upload_body_events_of_pass (env : UploadEnv) (auth : String)
    (rt uid : Option String) (ident0 : Identity) (n : Nat)
    (h1 : pyStrip (pyReplace auth "Bearer " "") ≠ "")
    (h2 : decode_token env.auth (pyStrip (pyReplace auth "Bearer " "")) rt =
      (Except.ok ident0, n))
    (h3 : pyTruthy (merge_user_id ident0 uid).user_id = true) :
    (upload_body env auth rt uid).2 =
      ["extract_text", "parse_with_nlp", "save_to_db"] := by
  have hev := process_invoice_events ⟨env.nlp, env.save⟩ (extract_text env.ocr)
    (pyStrip (pyReplace auth "Bearer " "")) (merge_user_id ident0 uid)
  rcases hp : process_invoice ⟨env.nlp, env.save⟩ (extract_text env.ocr)
      (pyStrip (pyReplace auth "Bearer " "")) (merge_user_id ident0 uid)
    with ⟨res, ev⟩
  rw [hp] at hev
  simp only at hev
  subst hev
  rcases res with e | sd <;> simp [upload_body, h1, h2, h3, hp]

/-- C9: the decoded identity's missing user_id is backfilled from the
optional form field; the forwarded payload's user_id and business fields
are exactly the identity's user_id; the upload is rejected with the
"User ID missing" detail when both the claim and the form field are
falsy, and proceeds through the whole pipeline whenever the form field
is supplied. -/
theorem C9_form_user_id_fallback :
    (∀ ident0 uid, pyTruthy ident0.user_id = false → pyTruthy uid = true →
      (merge_user_id ident0 uid).user_id = uid) ∧
    (∀ data raw ident,
      lookupField (save_payload data raw ident) "user_id" =
        some (optJson ident.user_id) ∧
      lookupField (save_payload data raw ident) "business" =
        some (optJson ident.user_id)) ∧
    (∀ env auth rt uid ident0 n,
      pyStrip (pyReplace auth "Bearer " "") ≠ "" →
      decode_token env.auth (pyStrip (pyReplace auth "Bearer " "")) rt =
        (Except.ok ident0, n) →
      pyTruthy ident0.user_id = false → pyTruthy uid = false →
      upload_receipt env auth rt uid =
        (.httpError 500 "401: User ID missing", [])) ∧
    (∀ env auth rt uid ident0 n,
      pyStrip (pyReplace auth "Bearer " "") ≠ "" →
      decode_token env.auth (pyStrip (pyReplace auth "Bearer " "")) rt =
        (Except.ok ident0, n) →
      pyTruthy uid = true →
      (upload_receipt env auth rt uid).2 =
        ["extract_text", "parse_with_nlp", "save_to_db"]) := by
  refine ⟨?_, ?_, ?_, ?_⟩
  · intro ident0 uid h1 h2
    simp [merge_user_id, h1, h2]
  · intro data raw ident
    exact ⟨rfl, rfl⟩
  · intro env auth rt uid ident0 n h1 h2 h3 h4
    have hm : merge_user_id ident0 uid = ident0 := by
      simp [merge_user_id, h4]
    simp [upload_receipt, upload_body, h1, h2, hm, h3, pyStr]
    rfl
  · intro env auth rt uid ident0 n h1 h2 h3
    have hm : pyTruthy (merge_user_id ident0 uid).user_id = true := by
      cases hid : pyTruthy ident0.user_id with
      | true => simp [merge_user_id, hid]
      | false => simp [merge_user_id, hid, h3]
    rw [upload_receipt_events env auth rt uid]
    exact upload_body_events_of_pass env auth rt uid ident0 n h1 h2 hm

/-- Witness for C9: a credential without a user_id claim, with and
without the form field. -/
theorem C9_form_user_id_fallback_witness :
    (merge_user_id ⟨some "carol", some "c@x.io", none⟩ (some "42")).user_id =
      some "42" ∧
    (lookupField (save_payload invoiceRecord "raw" identAlice) "user_id" =
      some (optJson identAlice.user_id) ∧
     lookupField (save_payload invoiceRecord "raw" identAlice) "business" =
      some (optJson identAlice.user_id)) ∧
    upload_receipt envC9 "Bearer tok" none none =
      (.httpError 500 "401: User ID missing", []) ∧
    (upload_receipt envC9 "Bearer tok" none (some "42")).2 =
      ["extract_text", "parse_with_nlp", "save_to_db"] :=
  ⟨C9_form_user_id_fallback.1 ⟨some "carol", some "c@x.io", none⟩ (some "42")
     rfl (by decide),
   C9_form_user_id_fallback.2.1 invoiceRecord "raw" identAlice,
   C9_form_user_id_fallback.2.2.1 envC9 "Bearer tok" none none
     ⟨some "carol", some "c@x.io", none⟩ 0 (by decide) rfl rfl rfl,
   C9_form_user_id_fallback.2.2.2 envC9 "Bearer tok" none (some "42")
     ⟨some "carol", some "c@x.io", none⟩ 0 (by decide) rfl (by decide)⟩

end Autobooks
